import Mathlib

/-!
Verification of the dealmate marketplace core (Rust, `src/marketplace`).

The Rust code is shallowly embedded: the relational store becomes an explicit
`DB` record of table rows, each `sqlx` statement becomes a pure update of that
record, fallible operations return `Except AppError`, machine floats on the
money/score paths are modelled as `ℚ`, and timestamps are modelled as `Int`
seconds.  Every definition is translated from the source in
`src/marketplace/mod.rs`, `rate_limiter.rs` and `duplicate_detector.rs`;
the few pieces of the repository that are not under `src/` (the `AppError`
enum of `crate::error` and the `EncryptionService` of
`crate::services::encryption`) are modelled from the spec, as marked.
-/

namespace Marketplace

/-- Modelled from the spec: `crate::error::AppError` is not under `src/`.
Constructors follow spec section 7 (`NotFound`, `Forbidden`, `Conflict`,
`InvalidOperation`, `RateLimited`, `Internal`) together with the variants the
`src/` code actually constructs (`NotFound`, `InternalError`, `BadRequest`). -/
inductive AppError where
  | NotFound (msg : String)
  | Forbidden (msg : String)
  | Conflict (msg : String)
  | InvalidOperation (msg : String)
  | RateLimited (msg : String)
  | InternalError (msg : String)
  | BadRequest (msg : String)
deriving DecidableEq, Repr

/-- Row of `marketplace_listings`.  Fields not read or written by the verified
operations (description, tags, timestamps, view count, verification data) are
omitted.  `status` is a string in the source (`"active"`, `"sold"`, ...). -/
structure MarketplaceListing where
  id : Nat
  seller_id : String
  title : String
  category : String
  brand_name : Option String
  selling_price : ℚ
  status : String
deriving DecidableEq, Repr

/-- Row of `marketplace_transactions` (fields touched by the verified
operations). -/
structure MarketplaceTransaction where
  id : Nat
  listing_id : Nat
  buyer_id : String
  seller_id : String
  amount : ℚ
  status : String
  payment_method : Option String
  created_at : Int
  completed_at : Option Int
deriving DecidableEq, Repr

/-- Row of `marketplace_coupon_access`: the grant recorded on completion. -/
structure CouponAccessGrant where
  listing_id : Nat
  user_id : String
  transaction_id : Nat
deriving DecidableEq, Repr

/-- Row of `marketplace_reviews` (fields read by the trust-score recompute). -/
structure MarketplaceReview where
  id : Nat
  transaction_id : Nat
  reviewer_id : String
  reviewed_user_id : String
  rating : Int
deriving DecidableEq, Repr

/-- Row of `marketplace_trust_scores`. -/
structure MarketplaceTrustScore where
  user_id : String
  total_transactions : Int
  successful_transactions : Int
  average_rating : ℚ
  total_reviews : Int
  verified_seller : Bool
  trust_score : ℚ
deriving DecidableEq, Repr

/-- Row of `marketplace_notifications` (fields inserted by
`create_notification`). -/
structure MarketplaceNotification where
  user_id : String
  notification_type : String
  title : String
  message : String
  related_listing_id : Option Nat
  related_transaction_id : Option Nat
deriving DecidableEq, Repr

/-- The relational store: one list per table the verified operations touch.
`couponCodes` maps a listing id to the stored `encrypted_code` string of
`marketplace_coupon_codes`. -/
structure DB where
  listings : List MarketplaceListing
  transactions : List MarketplaceTransaction
  couponAccess : List CouponAccessGrant
  couponCodes : List (Nat × String)
  reviews : List MarketplaceReview
  trustScores : List MarketplaceTrustScore
  notifications : List MarketplaceNotification
deriving DecidableEq, Repr

/-- The empty store. -/
def DB.empty : DB := ⟨[], [], [], [], [], [], []⟩

/-! ## Transaction state machine (`mod.rs`) -/

/-- Embeds `create_transaction` (mod.rs lines 359-424).  The three Boolean
parameters model the fallibility of the three separate SQL statements the
function issues on the pool (INSERT of the transaction row, UPDATE of the
listing status, INSERT of the seller notification): the Rust `?` operator
propagates a statement failure, and because the statements are not wrapped in
a database transaction, the writes of the statements that already succeeded
persist.  A statement failure surfaces as `InternalError` (spec section 7:
storage failures map to `Internal`). -/
def create_transaction (db : DB) (buyerId : String) (listingId : Nat)
    (paymentMethod : String) (txnId : Nat) (now : Int)
    (insertTxnFails updateListingFails insertNotifFails : Bool) :
    Except AppError MarketplaceTransaction × DB :=
  match db.listings.find? (fun l => l.id == listingId) with
  | none => (.error (.NotFound "Listing not found"), db)
  | some l =>
    if l.status ≠ "active" then
      (.error (.NotFound "Listing is not available for purchase"), db)
    else if l.seller_id == buyerId then
      (.error (.NotFound "You cannot purchase your own listing"), db)
    else if insertTxnFails then (.error (.InternalError "database error"), db)
    else
      let txn : MarketplaceTransaction :=
        { id := txnId, listing_id := listingId, buyer_id := buyerId,
          seller_id := l.seller_id, amount := l.selling_price,
          status := "pending", payment_method := some paymentMethod,
          created_at := now, completed_at := none }
      let db1 := { db with transactions := db.transactions ++ [txn] }
      if updateListingFails then (.error (.InternalError "database error"), db1)
      else
        let db2 := { db1 with listings := (db1.listings.map
          (fun x => if x.id == listingId then { x with status := "sold" } else x)) }
        if insertNotifFails then (.error (.InternalError "database error"), db2)
        else
          let notif : MarketplaceNotification :=
            { user_id := l.seller_id, notification_type := "new_sale",
              title := "New Sale!", message := "Your listing has been purchased",
              related_listing_id := some listingId,
              related_transaction_id := some txnId }
          (.ok txn, { db2 with notifications := db2.notifications ++ [notif] })

/-! ## Reputation engine (`mod.rs`, trust score management) -/

/-- The reviews aggregated for a user: the SQL left join in
`recalculate_trust_score` matches `marketplace_reviews` rows on
`reviewed_user_id = ts.user_id`. -/
def reviewsFor (reviews : List MarketplaceReview) (userId : String) :
    List MarketplaceReview :=
  reviews.filter (fun r => r.reviewed_user_id == userId)

/-- `AVG(r.rating)` of the joined rows: `NULL` (`none`) when the user has no
reviews, the exact rational mean otherwise. -/
def avgRating (rs : List MarketplaceReview) : Option ℚ :=
  if rs.length = 0 then none
  else some (((rs.map (fun r => r.rating)).sum : ℚ) / (rs.length : ℚ))

/-- The score computation of `recalculate_trust_score` (mod.rs lines 635-658):
base 50, plus `success_rate * 30` when `total_transactions > 0`, plus
`(avg_rating / 5) * 30` when the average is non-NULL, plus
`min(review_count, 10)`, plus 10 for a verified seller, capped at 100. -/
def computeTrustScore (total successful : Int) (verified : Bool)
    (reviewCount : Nat) (avg : Option ℚ) : ℚ :=
  let base : ℚ := 50
  let s1 := if 0 < total then base + ((successful : ℚ) / (total : ℚ)) * 30 else base
  let s2 := match avg with
    | some rating => s1 + (rating / 5) * 30
    | none => s1
  let s3 := s2 + min (reviewCount : ℚ) 10
  let s4 := if verified then s3 + 10 else s3
  min s4 100

/-- Embeds `recalculate_trust_score` (mod.rs lines 608-680) on one
`marketplace_trust_scores` row: read the aggregates, compute the score, write
`trust_score`, `average_rating` (`unwrap_or(0.0)`) and `total_reviews` back. -/
def recalculate_trust_score_row (row : MarketplaceTrustScore)
    (reviews : List MarketplaceReview) : MarketplaceTrustScore :=
  let rs := reviewsFor reviews row.user_id
  let avg := avgRating rs
  let score := computeTrustScore row.total_transactions
    row.successful_transactions row.verified_seller rs.length avg
  { row with trust_score := score, average_rating := avg.getD 0,
             total_reviews := (rs.length : Int) }

/-- `recalculate_trust_score` on the store: the `fetch_optional` means a user
without a trust-score row is left unchanged. -/
def recalculate_trust_score (db : DB) (userId : String) : DB :=
  { db with trustScores := (db.trustScores.map
      (fun r => if r.user_id == userId then recalculate_trust_score_row r db.reviews else r)) }

/-- Embeds `update_trust_score_after_transaction` (mod.rs lines 577-606):
increment `total_transactions` (and `successful_transactions` when
`successful`), then recalculate. -/
def update_trust_score_after_transaction (db : DB) (userId : String)
    (successful : Bool) : DB :=
  let db1 := { db with trustScores := (db.trustScores.map (fun r =>
      if r.user_id == userId then
        (if successful then
          { r with total_transactions := r.total_transactions + 1,
                   successful_transactions := r.successful_transactions + 1 }
        else { r with total_transactions := r.total_transactions + 1 })
      else r)) }
  recalculate_trust_score db1 userId

/-- Embeds `complete_transaction` (mod.rs lines 426-485): load the
transaction, check the caller is the buyer, check the status is `escrow`,
set it to `completed` with the completion timestamp, insert the coupon access
grant with `ON CONFLICT (listing_id, user_id) DO NOTHING`, update the seller
trust score, notify the seller. -/
def complete_transaction (db : DB) (callerId : String) (txnId : Nat)
    (now : Int) : Except AppError MarketplaceTransaction × DB :=
  match db.transactions.find? (fun t => t.id == txnId) with
  | none => (.error (.NotFound "Transaction not found"), db)
  | some txn =>
    if txn.buyer_id ≠ callerId then
      (.error (.NotFound "Only the buyer can complete this transaction"), db)
    else if txn.status ≠ "escrow" then
      (.error (.NotFound "Transaction is not in escrow status"), db)
    else
      let updated := { txn with status := "completed", completed_at := some now }
      let db1 := { db with transactions := (db.transactions.map
        (fun (t : MarketplaceTransaction) =>
          if t.id == txnId then { t with status := "completed", completed_at := some now } else t)) }
      let db2 :=
        if db1.couponAccess.any
            (fun g => g.listing_id == txn.listing_id && g.user_id == callerId)
        then db1
        else { db1 with couponAccess :=
          db1.couponAccess ++ [⟨txn.listing_id, callerId, txnId⟩] }
      let db3 := update_trust_score_after_transaction db2 txn.seller_id true
      let notif : MarketplaceNotification :=
        { user_id := txn.seller_id, notification_type := "transaction_completed",
          title := "Transaction Completed!",
          message := "Your sale has been completed and funds will be released",
          related_listing_id := some txn.listing_id,
          related_transaction_id := some txnId }
      (.ok updated, { db3 with notifications := db3.notifications ++ [notif] })

/-! ## Secret vault (`mod.rs`, coupon code management) -/

/-- Splitting a string on a separator character, with the semantics of Rust
`str::split(sep)`: every occurrence of the separator ends a part, so `"a:b"`
gives `["a", "b"]`, `"ab"` gives `["ab"]`, and `":"` gives `["", ""]`. -/
def splitOnChar (sep : Char) (s : String) : List String :=
  (s.toList.foldr
    (fun ch acc =>
      if ch = sep then [] :: acc
      else match acc with
        | h :: t => (ch :: h) :: t
        | [] => [[ch]])
    ([[]] : List (List Char))).map (fun l => ⟨l⟩)

/-- The key resolution shared by `create_listing` and `get_coupon_code`
(mod.rs lines 75-76 and 813-814): take the `ENCRYPTION_KEY` environment
variable, and when it is absent fall back to a freshly generated key
(`EncryptionService::generate_key`), modelled by the `generatedKey`
parameter. -/
def encryptionKeyFromEnv (env : String → Option String)
    (generatedKey : String) : String :=
  (env "ENCRYPTION_KEY").getD generatedKey

/-- The access check of `get_coupon_code` (mod.rs lines 779-789): the
requester is the listing seller, or a `marketplace_coupon_access` row exists
for the listing and the requester. -/
def hasCouponAccess (db : DB) (userId : String) (listingId : Nat) : Bool :=
  db.listings.any (fun l => l.id == listingId && l.seller_id == userId) ||
  db.couponAccess.any (fun g => g.listing_id == listingId && g.user_id == userId)

/-- The stored `encrypted_code` of `marketplace_coupon_codes` for a listing,
if any. -/
def lookupCouponCode (db : DB) (listingId : Nat) : Option String :=
  (db.couponCodes.find? (fun c => c.1 == listingId)).map (fun c => c.2)

/-- Embeds `get_coupon_code` (mod.rs lines 773-823).  `decrypt` stands for
`EncryptionService::new` followed by `decrypt_string` (ciphertext, then
nonce); the service lives in `crate::services::encryption`, which is not
under `src/`, so it is modelled from the spec as an abstract fallible
decryption taking the configured key. -/
def get_coupon_code (decrypt : String → String → String → Except AppError String)
    (env : String → Option String) (generatedKey : String)
    (db : DB) (userId : String) (listingId : Nat) :
    Except AppError (Option String) :=
  if hasCouponAccess db userId listingId = false then .ok none
  else
    match lookupCouponCode db listingId with
    | none => .ok none
    | some encrypted =>
      match splitOnChar ':' encrypted with
      | [ct, nonce] =>
        (decrypt (encryptionKeyFromEnv env generatedKey) ct nonce).map some
      | _ => .error (.InternalError "Invalid encrypted data format")

/-- Embeds the coupon-storage branch of `create_listing` (mod.rs lines
72-93): resolve the key, encrypt the coupon code, store
`"{encrypted}:{nonce}"` in `marketplace_coupon_codes`.  `encrypt` stands for
`EncryptionService::new` followed by `encrypt_string`, modelled from the spec
as an abstract fallible authenticated encryption returning a ciphertext and a
nonce. -/
def store_coupon_code (encrypt : String → String → Except AppError (String × String))
    (env : String → Option String) (generatedKey : String)
    (listingId : Nat) (couponCode : String) (db : DB) : Except AppError DB :=
  match encrypt (encryptionKeyFromEnv env generatedKey) couponCode with
  | .error e => .error e
  | .ok (ct, nonce) =>
    .ok { db with couponCodes := db.couponCodes ++ [(listingId, ct ++ ":" ++ nonce)] }

/-! ## Rate limiter (`rate_limiter.rs`)

Timestamps are modelled as `Int` seconds; `chrono::Duration::minutes(m)` is
`m * 60` seconds.  The statements of `check_and_increment` always succeed in
this model (the claims under verification do not exercise storage faults
here), and the periodic `cleanup_old_entries` sweep is not modelled: the
`window_start > cutoff` filter of the SELECT already ignores every row the
sweep would delete, and the `ON CONFLICT` upsert resets such a row, so the
sweep does not change any result. -/

/-- Action types of the rate limiter. -/
inductive ActionType where
  | CreateListing
  | CreateTransaction
  | CreateReview
  | SendMessage
deriving DecidableEq, Repr

/-- A rate limit: maximum attempts per window (minutes). -/
structure RateLimit where
  max_attempts : Int
  window_minutes : Int
deriving DecidableEq, Repr

/-- The fixed limits table built in `RateLimiter::new` (rate_limiter.rs lines
26-51). -/
def limitsFor : ActionType → RateLimit
  | .CreateListing => ⟨10, 60⟩
  | .CreateTransaction => ⟨50, 60⟩
  | .CreateReview => ⟨20, 60⟩
  | .SendMessage => ⟨100, 60⟩

/-- `action_to_string` (rate_limiter.rs lines 216-223). -/
def action_to_string : ActionType → String
  | .CreateListing => "create_listing"
  | .CreateTransaction => "create_transaction"
  | .CreateReview => "create_review"
  | .SendMessage => "send_message"

/-- Row of `marketplace_rate_limits` (unique on `(user_id, action_type)`, as
witnessed by the `ON CONFLICT` clause). -/
structure RateLimitRow where
  user_id : String
  action_type : String
  count : Int
  window_start : Int
deriving DecidableEq, Repr

/-- The result record of `check_and_increment`. -/
structure RateLimitResult where
  allowed : Bool
  remaining : Int
  reset_at : Int
  retry_after : Int
deriving DecidableEq, Repr

/-- Embeds `check_and_increment` (rate_limiter.rs lines 54-150).  The SELECT
filters on the user, the action and `window_start > now - window`; a hit with
`count >= max` is denied with `retry_after = max(reset - now, 0)`, a hit
below the limit is incremented, and a miss (no row, or only an expired row)
is upserted to `count = 1, window_start = now`. -/
def check_and_increment (st : List RateLimitRow) (userId : String)
    (action : ActionType) (now : Int) : RateLimitResult × List RateLimitRow :=
  let limit := limitsFor action
  let astr := action_to_string action
  let wcut := now - limit.window_minutes * 60
  match st.find? (fun r =>
      r.user_id == userId && r.action_type == astr && decide (wcut < r.window_start)) with
  | some row =>
    if row.count ≥ limit.max_attempts then
      let reset := row.window_start + limit.window_minutes * 60
      ({ allowed := false, remaining := 0, reset_at := reset,
         retry_after := max (reset - now) 0 }, st)
    else
      ({ allowed := true, remaining := limit.max_attempts - (row.count + 1),
         reset_at := row.window_start + limit.window_minutes * 60,
         retry_after := 0 },
       st.map (fun (r : RateLimitRow) =>
         if r.user_id == userId && r.action_type == astr
         then { r with count := row.count + 1 } else r))
  | none =>
      ({ allowed := true, remaining := limit.max_attempts - 1,
         reset_at := now + limit.window_minutes * 60, retry_after := 0 },
       if st.any (fun r => r.user_id == userId && r.action_type == astr)
       then st.map (fun (r : RateLimitRow) =>
         if r.user_id == userId && r.action_type == astr
         then { r with count := 1, window_start := now } else r)
       else st ++ [⟨userId, astr, 1, now⟩])

/-- The state after a sequence of `check_and_increment` calls by one user for
one action, starting from an empty table, the i-th call at time `t i`. -/
def runCalls (userId : String) (action : ActionType) (t : ℕ → Int) : ℕ → List RateLimitRow
  | 0 => []
  | n + 1 => (check_and_increment (runCalls userId action t n) userId action (t n)).2

/-! ## Duplicate detector (`duplicate_detector.rs`) -/

/-- Splitting on whitespace with the semantics of Rust
`str::split_whitespace`: split on every whitespace character and drop the
empty parts. -/
def whitespaceTokens (s : String) : List String :=
  ((s.toList.foldr
    (fun ch acc =>
      if ch.isWhitespace then [] :: acc
      else match acc with
        | h :: t => (ch :: h) :: t
        | [] => [[ch]])
    ([[]] : List (List Char))).map (fun l => (⟨l⟩ : String))).filter (fun p => p ≠ "")

/-- Lowercasing, character by character (Rust `str::to_lowercase`; ASCII
suffices for the verified properties). -/
def lowerString (s : String) : String := ⟨s.toList.map Char.toLower⟩

/-- The case-insensitive whitespace token set of a string (the `HashSet` of
`calculate_similarity`). -/
def tokenSet (s : String) : Finset String := (whitespaceTokens (lowerString s)).toFinset

/-- Embeds `calculate_similarity` (duplicate_detector.rs lines 131-150):
Jaccard similarity of the token sets, 0 when either set is empty. -/
def calculate_similarity (s1 s2 : String) : ℚ :=
  let t1 := tokenSet s1
  let t2 := tokenSet s2
  if t1 = ∅ ∨ t2 = ∅ then 0
  else ((t1 ∩ t2).card : ℚ) / ((t1 ∪ t2).card : ℚ)

/-- A candidate row returned by the SQL query of `find_similar_listings`
(active, same category, different seller, matching brand when a brand is
given); those filters run in the database, so candidates enter the model as a
list. -/
structure CandidateListing where
  id : Nat
  title : String
  seller_username : String
  brand_name : Option String
deriving DecidableEq, Repr

/-- Match type of a duplicate report. -/
inductive MatchType where
  | Exact
  | Similar
deriving DecidableEq, Repr

/-- A duplicate report (`DuplicateInfo`). -/
structure DuplicateInfo where
  listing_id : Nat
  title : String
  seller_username : String
  match_type : MatchType
  confidence : Nat
deriving DecidableEq, Repr

/-- The classification of one candidate in the loop of
`find_similar_listings` (duplicate_detector.rs lines 97-118): brand match and
similarity above 0.7 gives confidence 85, otherwise similarity above 0.8
gives confidence 75, otherwise the candidate is skipped. -/
def classifyCandidate (couponCode : String) (brand : Option String)
    (cand : CandidateListing) : Option Nat :=
  let sim := calculate_similarity cand.title couponCode
  let brandMatch := brand.isSome && (cand.brand_name == brand)
  if brandMatch = true ∧ 7/10 < sim then some 85
  else if 8/10 < sim then some 75
  else none

/-- Embeds the collection loop of `find_similar_listings`: every flagged
candidate becomes a `Similar` report with its confidence, in order. -/
def find_similar_listings (couponCode : String) (brand : Option String)
    (candidates : List CandidateListing) : List DuplicateInfo :=
  candidates.filterMap (fun cand =>
    (classifyCandidate couponCode brand cand).map (fun conf =>
      { listing_id := cand.id, title := cand.title,
        seller_username := cand.seller_username,
        match_type := MatchType.Similar, confidence := conf }))

/-- True exactly on a `Conflict` error result. -/
def isConflictError {α : Type} : Except AppError α → Bool
  | .error (.Conflict _) => true
  | _ => false

/-- True exactly on an `InvalidOperation` error result. -/
def isInvalidOperationError {α : Type} : Except AppError α → Bool
  | .error (.InvalidOperation _) => true
  | _ => false

/-- True exactly on a `Forbidden` error result. -/
def isForbiddenError {α : Type} : Except AppError α → Bool
  | .error (.Forbidden _) => true
  | _ => false

/-- The score formula exactly as the spec words it (section 4.2):
`score = 50 + successRate*30 + (avgRating/5)*30 + min(reviewCount,10) +
(10 if verifiedSeller else 0)`, clamped to `[0,100]`, with
`successRate = successfulTransactions/totalTransactions` (0 if no
transactions).  Stated only for comparison with the embedded computation
`computeTrustScore`. -/
def specTrustScore (totalTransactions successfulTransactions : Int)
    (verifiedSeller : Bool) (reviewCount : Nat) (avgRatingValue : ℚ) : ℚ :=
  let successRate : ℚ :=
    if totalTransactions = 0 then 0
    else (successfulTransactions : ℚ) / (totalTransactions : ℚ)
  let raw := 50 + successRate * 30 + (avgRatingValue / 5) * 30 +
    min (reviewCount : ℚ) 10 + (if verifiedSeller then 10 else 0)
  min (max raw 0) 100

/-! ## Theorems -/

/-- The average rating is non-negative whenever every aggregated rating is at
least 1 (the data-model range of a rating is 1 to 5). -/
lemma avgRating_nonneg (rs : List MarketplaceReview)
    (h : ∀ rev ∈ rs, 1 ≤ rev.rating) :
    ∀ r, avgRating rs = some r → 0 ≤ r := by
  intro r hr
  unfold avgRating at hr
  by_cases hl : rs.length = 0
  · simp [hl] at hr
  · rw [if_neg hl] at hr
    have hr2 := Option.some.inj hr
    subst hr2
    apply div_nonneg
    · apply List.sum_nonneg
      intro x hx
      obtain ⟨rev, hrev, hrx⟩ := List.mem_map.mp hx
      rw [← hrx]
      have h1 := h rev hrev
      exact_mod_cast (by omega : (0 : ℤ) ≤ rev.rating)
    · exact Nat.cast_nonneg _

/-- The trust score never exceeds 100: the computation ends in a cap at
100. -/
lemma computeTrustScore_le_100 (total successful : Int) (verified : Bool)
    (rc : Nat) (avg : Option ℚ) :
    computeTrustScore total successful verified rc avg ≤ 100 :=
  min_le_right _ _

/-- The trust score never drops below the base of 50: every contribution is
non-negative for non-negative transaction counts and ratings. -/
lemma computeTrustScore_ge_50 (total successful : Int) (verified : Bool)
    (rc : Nat) (avg : Option ℚ) (htot : 0 ≤ total) (hsucc : 0 ≤ successful)
    (havg : ∀ r, avg = some r → 0 ≤ r) :
    50 ≤ computeTrustScore total successful verified rc avg := by
  have hrc : (0:ℚ) ≤ min (rc : ℚ) 10 := le_min (Nat.cast_nonneg rc) (by norm_num)
  have hdiv : 0 < total → (0:ℚ) ≤ (successful : ℚ) / (total : ℚ) * 30 := fun ht =>
    mul_nonneg (div_nonneg (by exact_mod_cast hsucc) (by exact_mod_cast ht.le))
      (by norm_num)
  cases avg with
  | none =>
    simp only [computeTrustScore]
    refine le_min ?_ (by norm_num)
    split_ifs <;>
      first
        | (have hd := hdiv (by assumption); linarith)
        | linarith
  | some r =>
    have hr : (0:ℚ) ≤ r := havg r rfl
    have hr30 : (0:ℚ) ≤ r / 5 * 30 :=
      mul_nonneg (div_nonneg hr (by norm_num)) (by norm_num)
    simp only [computeTrustScore]
    refine le_min ?_ (by norm_num)
    split_ifs <;>
      first
        | (have hd := hdiv (by assumption); linarith)
        | linarith

/-- The embedded score computation agrees with the formula as the spec words
it, for non-negative aggregates: the only difference, a lower clamp at 0 that
the code omits, is invisible because the value never drops below 50. -/
lemma computeTrustScore_eq_spec (total successful : Int) (verified : Bool)
    (rc : Nat) (avg : Option ℚ) (htot : 0 ≤ total) (hsucc : 0 ≤ successful)
    (havg : ∀ r, avg = some r → 0 ≤ r) :
    computeTrustScore total successful verified rc avg =
      specTrustScore total successful verified rc (avg.getD 0) := by
  have hrc : (0:ℚ) ≤ min (rc : ℚ) 10 := le_min (Nat.cast_nonneg rc) (by norm_num)
  have hdiv : 0 < total → (0:ℚ) ≤ (successful : ℚ) / (total : ℚ) * 30 := fun ht =>
    mul_nonneg (div_nonneg (by exact_mod_cast hsucc) (by exact_mod_cast ht.le))
      (by norm_num)
  cases avg with
  | none =>
    by_cases hpos : 0 < total
    · have hne : ¬(total = 0) := by omega
      cases verified <;>
        (simp only [computeTrustScore, specTrustScore, Option.getD,
          if_pos hpos, if_neg hne, if_true, if_false, Bool.false_eq_true]
         rw [max_eq_left (by have := hdiv hpos; linarith)]
         try (congr 1; ring))
    · have hz : total = 0 := by omega
      cases verified <;>
        (simp only [computeTrustScore, specTrustScore, Option.getD,
          if_neg hpos, if_pos hz, if_true, if_false, Bool.false_eq_true]
         rw [max_eq_left (by linarith)]
         try (congr 1; ring))
  | some r =>
    have hr : (0:ℚ) ≤ r := havg r rfl
    have hr30 : (0:ℚ) ≤ r / 5 * 30 :=
      mul_nonneg (div_nonneg hr (by norm_num)) (by norm_num)
    by_cases hpos : 0 < total
    · have hne : ¬(total = 0) := by omega
      cases verified <;>
        (simp only [computeTrustScore, specTrustScore, Option.getD,
          if_pos hpos, if_neg hne, if_true, if_false, Bool.false_eq_true]
         rw [max_eq_left (by have := hdiv hpos; linarith)]
         try (congr 1; ring))
    · have hz : total = 0 := by omega
      cases verified <;>
        (simp only [computeTrustScore, specTrustScore, Option.getD,
          if_neg hpos, if_pos hz, if_true, if_false, Bool.false_eq_true]
         rw [max_eq_left (by linarith)]
         try (congr 1; ring))

/-- C6: the recompute writes back exactly the spec formula (with
`successRate = 0` when there are no transactions, the average rating taken
as 0 when there are no reviews, and the clamp to `[0,100]`), together with
the average rating and the review count. -/
theorem recalculate_trust_score_matches_spec (row : MarketplaceTrustScore)
    (reviews : List MarketplaceReview)
    (htot : 0 ≤ row.total_transactions)
    (hsucc : 0 ≤ row.successful_transactions)
    (hrat : ∀ rev ∈ reviewsFor reviews row.user_id, 1 ≤ rev.rating) :
    (recalculate_trust_score_row row reviews).trust_score =
      specTrustScore row.total_transactions row.successful_transactions
        row.verified_seller (reviewsFor reviews row.user_id).length
        ((avgRating (reviewsFor reviews row.user_id)).getD 0) ∧
    (recalculate_trust_score_row row reviews).average_rating =
      (avgRating (reviewsFor reviews row.user_id)).getD 0 ∧
    (recalculate_trust_score_row row reviews).total_reviews =
      ((reviewsFor reviews row.user_id).length : Int) :=
  ⟨computeTrustScore_eq_spec _ _ _ _ _ htot hsucc
      (avgRating_nonneg _ hrat), rfl, rfl⟩

/-- Witness for C6: a seller with 2 transactions, 1 successful, verified,
and one 5-star review. -/
theorem recalculate_trust_score_matches_spec_witness :
    let row : MarketplaceTrustScore :=
      { user_id := "u", total_transactions := 2, successful_transactions := 1,
        average_rating := 0, total_reviews := 0, verified_seller := true,
        trust_score := 50 }
    let reviews : List MarketplaceReview :=
      [{ id := 1, transaction_id := 3, reviewer_id := "b",
         reviewed_user_id := "u", rating := 5 }]
    (recalculate_trust_score_row row reviews).trust_score =
      specTrustScore 2 1 true (reviewsFor reviews "u").length
        ((avgRating (reviewsFor reviews "u")).getD 0) ∧
    (recalculate_trust_score_row row reviews).average_rating =
      (avgRating (reviewsFor reviews "u")).getD 0 ∧
    (recalculate_trust_score_row row reviews).total_reviews =
      ((reviewsFor reviews "u").length : Int) := by
  intro row reviews
  exact recalculate_trust_score_matches_spec row reviews (by decide) (by decide)
    (by decide)

/-- C7: for every aggregate input with non-negative transaction counts and a
non-negative average rating the computed score lies in `[0,100]`, and the
recompute is idempotent: running it a second time on unchanged review
aggregates rewrites exactly the same row. -/
theorem trust_score_bounds_and_idempotent :
    (∀ (total successful : Int) (verified : Bool) (rc : Nat) (avg : Option ℚ),
      0 ≤ total → 0 ≤ successful → (∀ r, avg = some r → 0 ≤ r) →
      0 ≤ computeTrustScore total successful verified rc avg ∧
      computeTrustScore total successful verified rc avg ≤ 100) ∧
    (∀ (row : MarketplaceTrustScore) (reviews : List MarketplaceReview),
      recalculate_trust_score_row (recalculate_trust_score_row row reviews) reviews =
        recalculate_trust_score_row row reviews) := by
  constructor
  · intro total successful verified rc avg htot hsucc havg
    exact ⟨le_trans (by norm_num)
        (computeTrustScore_ge_50 total successful verified rc avg htot hsucc havg),
      computeTrustScore_le_100 total successful verified rc avg⟩
  · intro row reviews
    rfl

/-- Witness for C7 at a fresh user with no history. -/
theorem trust_score_bounds_and_idempotent_witness :
    0 ≤ computeTrustScore 0 0 false 0 none ∧
    computeTrustScore 0 0 false 0 none ≤ 100 :=
  trust_score_bounds_and_idempotent.1 0 0 false 0 none (le_refl 0) (le_refl 0)
    (fun r h => Option.noConfusion h)

/-- C10: every score written by the recompute lies in `[50,100]`: the
computation starts from the base 50, adds only non-negative contributions
(for non-negative counts and ratings at least 1), and is capped only from
above. -/
theorem trust_score_range_50_100 (row : MarketplaceTrustScore)
    (reviews : List MarketplaceReview)
    (htot : 0 ≤ row.total_transactions)
    (hsucc : 0 ≤ row.successful_transactions)
    (hrat : ∀ rev ∈ reviewsFor reviews row.user_id, 1 ≤ rev.rating) :
    50 ≤ (recalculate_trust_score_row row reviews).trust_score ∧
    (recalculate_trust_score_row row reviews).trust_score ≤ 100 :=
  ⟨computeTrustScore_ge_50 _ _ _ _ _ htot hsucc (avgRating_nonneg _ hrat),
    computeTrustScore_le_100 _ _ _ _ _⟩

/-- Witness for C10: a user with a failed transaction and a 1-star review
still scores at least 50. -/
theorem trust_score_range_50_100_witness :
    let row : MarketplaceTrustScore :=
      { user_id := "u", total_transactions := 1, successful_transactions := 0,
        average_rating := 0, total_reviews := 0, verified_seller := false,
        trust_score := 50 }
    let reviews : List MarketplaceReview :=
      [{ id := 1, transaction_id := 3, reviewer_id := "b",
         reviewed_user_id := "u", rating := 1 }]
    50 ≤ (recalculate_trust_score_row row reviews).trust_score ∧
    (recalculate_trust_score_row row reviews).trust_score ≤ 100 := by
  intro row reviews
  exact trust_score_range_50_100 row reviews (by decide) (by decide) (by decide)

/-- C1: the claim says the transaction INSERT and the listing-status UPDATE
are applied as a single atomic unit, with no reachable state holding the
transaction row while the listing is still Active.  The code issues them as
two separate auto-committed statements; when the UPDATE fails after the
INSERT succeeded, the reached state holds the transaction row for listing 1
while listing 1 still has status `active`. -/
theorem create_transaction_not_atomic :
    let db0 : DB := { DB.empty with listings :=
      [{ id := 1, seller_id := "s", title := "Deal", category := "c",
         brand_name := none, selling_price := 20, status := "active" }] }
    let out := create_transaction db0 "b" 1 "card" 7 0 false true false
    out.1 = .error (.InternalError "database error") ∧
    out.2.transactions =
      [{ id := 7, listing_id := 1, buyer_id := "b", seller_id := "s",
         amount := 20, status := "pending", payment_method := some "card",
         created_at := 0, completed_at := none }] ∧
    out.2.listings.map (fun l => l.status) = ["active"] :=
  ⟨rfl, rfl, rfl⟩

/-- C3 counterexample: on a listing whose status is `sold` the purchase fails
with `NotFound`, not `Conflict`; on a self-purchase it fails with `NotFound`,
not `InvalidOperation`. -/
theorem create_transaction_error_kind_counterexample :
    let soldDb : DB := { DB.empty with listings :=
      [{ id := 1, seller_id := "s", title := "Deal", category := "c",
         brand_name := none, selling_price := 20, status := "sold" }] }
    let activeDb : DB := { DB.empty with listings :=
      [{ id := 2, seller_id := "s", title := "Deal", category := "c",
         brand_name := none, selling_price := 20, status := "active" }] }
    (create_transaction soldDb "b" 1 "card" 7 0 false false false).1 =
      .error (.NotFound "Listing is not available for purchase") ∧
    isConflictError (create_transaction soldDb "b" 1 "card" 7 0 false false false).1 = false ∧
    (create_transaction activeDb "s" 2 "card" 7 0 false false false).1 =
      .error (.NotFound "You cannot purchase your own listing") ∧
    isInvalidOperationError (create_transaction activeDb "s" 2 "card" 7 0 false false false).1 = false :=
  ⟨rfl, rfl, rfl, rfl⟩

/-- C3 amended: the purchase distinguishes the three failure conditions only
by message; the error kind is `NotFound` in all three cases: absent listing,
listing not active, and self-purchase. -/
theorem create_transaction_error_kinds_amended (db : DB)
    (buyerId pm : String) (listingId txnId : Nat) (now : Int) :
    (db.listings.find? (fun l => l.id == listingId) = none →
      (create_transaction db buyerId listingId pm txnId now false false false).1 =
        .error (.NotFound "Listing not found")) ∧
    (∀ l, db.listings.find? (fun l => l.id == listingId) = some l →
      l.status ≠ "active" →
      (create_transaction db buyerId listingId pm txnId now false false false).1 =
        .error (.NotFound "Listing is not available for purchase")) ∧
    (∀ l, db.listings.find? (fun l => l.id == listingId) = some l →
      l.status = "active" → l.seller_id = buyerId →
      (create_transaction db buyerId listingId pm txnId now false false false).1 =
        .error (.NotFound "You cannot purchase your own listing")) := by
  refine ⟨fun h => ?_, fun l hl hs => ?_, fun l hl hs hb => ?_⟩
  · simp only [create_transaction, h]
  · simp only [create_transaction, hl]
    rw [if_pos hs]
  · simp only [create_transaction, hl]
    rw [if_neg (by simp [hs]), if_pos (by simp [hb])]

/-- Witness for the amended C3 theorem at three concrete stores. -/
theorem create_transaction_error_kinds_amended_witness :
    (create_transaction DB.empty "b" 1 "card" 7 0 false false false).1 =
      .error (.NotFound "Listing not found") ∧
    (create_transaction { DB.empty with listings :=
        [{ id := 1, seller_id := "s", title := "Deal", category := "c",
           brand_name := none, selling_price := 20, status := "expired" }] }
      "b" 1 "card" 7 0 false false false).1 =
      .error (.NotFound "Listing is not available for purchase") ∧
    (create_transaction { DB.empty with listings :=
        [{ id := 1, seller_id := "s", title := "Deal", category := "c",
           brand_name := none, selling_price := 20, status := "active" }] }
      "s" 1 "card" 7 0 false false false).1 =
      .error (.NotFound "You cannot purchase your own listing") := by
  refine ⟨(create_transaction_error_kinds_amended DB.empty "b" "card" 1 7 0).1 (by decide),
    (create_transaction_error_kinds_amended _ "b" "card" 1 7 0).2.1
      { id := 1, seller_id := "s", title := "Deal", category := "c",
        brand_name := none, selling_price := 20, status := "expired" }
      (by decide) (by decide),
    (create_transaction_error_kinds_amended _ "s" "card" 1 7 0).2.2
      { id := 1, seller_id := "s", title := "Deal", category := "c",
        brand_name := none, selling_price := 20, status := "active" }
      (by decide) rfl rfl⟩

/-- C4 counterexample: a caller who is not the buyer gets `NotFound`, not
`Forbidden`; the buyer on a transaction that is not in escrow gets
`NotFound`, not `Conflict`. -/
theorem complete_transaction_error_kind_counterexample :
    let escrowDb : DB := { DB.empty with transactions :=
      [{ id := 3, listing_id := 1, buyer_id := "b", seller_id := "s",
         amount := 20, status := "escrow", payment_method := some "card",
         created_at := 0, completed_at := none }] }
    let pendingDb : DB := { DB.empty with transactions :=
      [{ id := 3, listing_id := 1, buyer_id := "b", seller_id := "s",
         amount := 20, status := "pending", payment_method := some "card",
         created_at := 0, completed_at := none }] }
    (complete_transaction escrowDb "x" 3 5).1 =
      .error (.NotFound "Only the buyer can complete this transaction") ∧
    isForbiddenError (complete_transaction escrowDb "x" 3 5).1 = false ∧
    (complete_transaction pendingDb "b" 3 5).1 =
      .error (.NotFound "Transaction is not in escrow status") ∧
    isConflictError (complete_transaction pendingDb "b" 3 5).1 = false :=
  ⟨rfl, rfl, rfl, rfl⟩

/-- C4 amended: completion fails with `NotFound` (not `Forbidden`) when the
caller is not the buyer and with `NotFound` (not `Conflict`) when the status
is not `escrow`; on success it returns the transaction with status
`completed` and the completion timestamp, stores that row, and inserts the
coupon access grant idempotently: assuming the unique key on
`(listing_id, user_id)` held before the call, exactly one grant row for the
pair exists afterwards, and a duplicate insert is a no-op. -/
theorem complete_transaction_amended (db : DB) (callerId : String)
    (txnId : Nat) (now : Int) :
    (∀ txn, db.transactions.find? (fun t => t.id == txnId) = some txn →
      txn.buyer_id ≠ callerId →
      (complete_transaction db callerId txnId now).1 =
        .error (.NotFound "Only the buyer can complete this transaction")) ∧
    (∀ txn, db.transactions.find? (fun t => t.id == txnId) = some txn →
      txn.buyer_id = callerId → txn.status ≠ "escrow" →
      (complete_transaction db callerId txnId now).1 =
        .error (.NotFound "Transaction is not in escrow status")) ∧
    (∀ txn, db.transactions.find? (fun t => t.id == txnId) = some txn →
      txn.buyer_id = callerId → txn.status = "escrow" →
      (complete_transaction db callerId txnId now).1 =
        .ok { txn with status := "completed", completed_at := some now } ∧
      { txn with status := "completed", completed_at := some now } ∈
        (complete_transaction db callerId txnId now).2.transactions ∧
      ((db.couponAccess.filter (fun g =>
          g.listing_id == txn.listing_id && g.user_id == callerId)).length ≤ 1 →
        ((complete_transaction db callerId txnId now).2.couponAccess.filter (fun g =>
          g.listing_id == txn.listing_id && g.user_id == callerId)).length = 1) ∧
      (db.couponAccess.any (fun g =>
          g.listing_id == txn.listing_id && g.user_id == callerId) = true →
        (complete_transaction db callerId txnId now).2.couponAccess = db.couponAccess)) := by
  refine ⟨fun txn ht hb => ?_, fun txn ht hb hs => ?_, fun txn ht hb hs => ?_⟩
  · simp only [complete_transaction, ht]
    rw [if_pos hb]
  · simp only [complete_transaction, ht]
    rw [if_neg (by simp [hb]), if_pos hs]
  · have hmem : txn ∈ db.transactions := List.mem_of_find?_eq_some ht
    simp only [complete_transaction, ht]
    rw [if_neg (by simp [hb]), if_neg (by simp [hs])]
    have hid := List.find?_some ht
    set p : CouponAccessGrant → Bool :=
      fun g => g.listing_id == txn.listing_id && g.user_id == callerId with hp
    by_cases hany : db.couponAccess.any p = true
    · rw [if_pos hany]
      refine ⟨rfl, ?_, ?_, fun _ => rfl⟩
      · simp only [update_trust_score_after_transaction, recalculate_trust_score]
        exact List.mem_map.mpr ⟨txn, hmem, by simp [hid]⟩
      · intro hlen
        obtain ⟨g, hg, hgp⟩ := List.any_eq_true.mp hany
        have hpos : 0 < (db.couponAccess.filter p).length :=
          List.length_pos.mpr (List.ne_nil_of_mem (List.mem_filter.mpr ⟨hg, hgp⟩))
        simp only [update_trust_score_after_transaction, recalculate_trust_score]
        omega
    · rw [if_neg hany]
      have hnone : ∀ g ∈ db.couponAccess, ¬ p g = true := by
        intro g hg hgp
        exact hany (List.any_eq_true.mpr ⟨g, hg, hgp⟩)
      refine ⟨rfl, ?_, ?_, fun hc => absurd hc hany⟩
      · simp only [update_trust_score_after_transaction, recalculate_trust_score]
        exact List.mem_map.mpr ⟨txn, hmem, by simp [hid]⟩
      · intro hlen
        simp only [update_trust_score_after_transaction, recalculate_trust_score,
          List.filter_append]
        rw [List.filter_eq_nil_iff.mpr hnone]
        simp [hp]

/-- Witness for the amended C4 theorem: all three branches at concrete
stores; the success branch starts from a store already holding the grant, so
the duplicate insert is exercised. -/
theorem complete_transaction_amended_witness :
    let escrowTxn : MarketplaceTransaction :=
      { id := 3, listing_id := 1, buyer_id := "b", seller_id := "s",
        amount := 20, status := "escrow", payment_method := some "card",
        created_at := 0, completed_at := none }
    let db1 : DB := { DB.empty with
      transactions := [escrowTxn]
      couponAccess := [⟨1, "b", 3⟩] }
    (complete_transaction db1 "x" 3 5).1 =
      .error (.NotFound "Only the buyer can complete this transaction") ∧
    (complete_transaction db1 "b" 3 5).1 =
      .ok { escrowTxn with status := "completed", completed_at := some 5 } ∧
    ((complete_transaction db1 "b" 3 5).2.couponAccess.filter (fun g =>
      g.listing_id == 1 && g.user_id == "b")).length = 1 ∧
    (complete_transaction db1 "b" 3 5).2.couponAccess = [⟨1, "b", 3⟩] := by
  intro escrowTxn db1
  refine ⟨(complete_transaction_amended db1 "x" 3 5).1 escrowTxn (by decide) (by decide),
    ((complete_transaction_amended db1 "b" 3 5).2.2 escrowTxn (by decide) rfl rfl).1,
    ((complete_transaction_amended db1 "b" 3 5).2.2 escrowTxn (by decide) rfl rfl).2.2.1 (by decide),
    ((complete_transaction_amended db1 "b" 3 5).2.2 escrowTxn (by decide) rfl rfl).2.2.2 (by decide)⟩

/-- C2: the secret reveal gives `Ok(None)` to a requester who is neither the
seller nor the holder of a coupon access grant, fails `Internal` for an
authorized requester when the stored value does not split into exactly two
parts on the `:` delimiter, and otherwise returns exactly the decryption of
the stored ciphertext and nonce under the configured key.  The first
conjunct characterizes the access check as the claimed disjunction. -/
theorem get_coupon_code_spec
    (decrypt : String → String → String → Except AppError String)
    (env : String → Option String) (gen : String)
    (db : DB) (userId : String) (listingId : Nat) :
    (hasCouponAccess db userId listingId = true ↔
      (∃ l ∈ db.listings, l.id = listingId ∧ l.seller_id = userId) ∨
      (∃ g ∈ db.couponAccess, g.listing_id = listingId ∧ g.user_id = userId)) ∧
    (hasCouponAccess db userId listingId = false →
      get_coupon_code decrypt env gen db userId listingId = .ok none) ∧
    (∀ s, hasCouponAccess db userId listingId = true →
      lookupCouponCode db listingId = some s →
      (splitOnChar ':' s).length ≠ 2 →
      get_coupon_code decrypt env gen db userId listingId =
        .error (.InternalError "Invalid encrypted data format")) ∧
    (∀ s ct nonce, hasCouponAccess db userId listingId = true →
      lookupCouponCode db listingId = some s →
      splitOnChar ':' s = [ct, nonce] →
      get_coupon_code decrypt env gen db userId listingId =
        (decrypt (encryptionKeyFromEnv env gen) ct nonce).map some) := by
  refine ⟨?_, fun h => ?_, fun s ha hl hlen => ?_, fun s ct nonce ha hl hsplit => ?_⟩
  · simp [hasCouponAccess, List.any_eq_true, Bool.and_eq_true, beq_iff_eq]
  · simp only [get_coupon_code, h, if_pos]
  · simp only [get_coupon_code, ha, Bool.true_eq_false, if_false, hl]
    rcases hparts : splitOnChar ':' s with _ | ⟨a, _ | ⟨b, _ | _⟩⟩ <;>
      simp_all
  · simp only [get_coupon_code, ha, Bool.true_eq_false, if_false, hl, hsplit]

/-- Witness for the C2 theorem: a seller reveal on a well-formed stored
value, and a denied reveal for a stranger. -/
theorem get_coupon_code_spec_witness :
    let dbW : DB := { DB.empty with
      listings := [{ id := 1, seller_id := "s", title := "Deal", category := "c",
                     brand_name := none, selling_price := 20, status := "active" }],
      couponCodes := [(1, "ab:cd")] }
    get_coupon_code (fun _ _ _ => .ok "PLAIN") (fun _ => none) "gen" dbW "s" 1 =
      .ok (some "PLAIN") ∧
    get_coupon_code (fun _ _ _ => .ok "PLAIN") (fun _ => none) "gen" dbW "other" 1 =
      .ok none := by
  intro dbW
  exact ⟨(get_coupon_code_spec _ _ _ dbW "s" 1).2.2.2 "ab:cd" "ab" "cd"
      (by decide) (by decide) (by decide),
    (get_coupon_code_spec _ _ _ dbW "other" 1).2.1 (by decide)⟩

/-- C9 counterexample: with no `ENCRYPTION_KEY` configured, both the secret
store at listing creation and the secret reveal proceed with the generated
ephemeral key instead of failing fast. -/
theorem encryption_key_fallback_counterexample :
    let dbW : DB := { DB.empty with
      listings := [{ id := 1, seller_id := "s", title := "Deal", category := "c",
                     brand_name := none, selling_price := 20, status := "active" }],
      couponCodes := [(1, "ab:cd")] }
    encryptionKeyFromEnv (fun _ => none) "generated" = "generated" ∧
    store_coupon_code (fun _ code => .ok (code, "n")) (fun _ => none) "generated"
        1 "SAVE20" DB.empty =
      .ok { DB.empty with couponCodes := [(1, "SAVE20:n")] } ∧
    get_coupon_code (fun key ct _ => .ok (ct ++ key)) (fun _ => none) "generated"
        dbW "s" 1 = .ok (some "abgenerated") :=
  ⟨rfl, rfl, rfl⟩

/-- C9 amended: when `ENCRYPTION_KEY` is absent from the environment, the
store and reveal operations resolve the key to the freshly generated
ephemeral key and proceed; neither fails for the missing configuration. -/
theorem encryption_key_fallback_amended (env : String → Option String)
    (gen : String) (henv : env "ENCRYPTION_KEY" = none) :
    encryptionKeyFromEnv env gen = gen ∧
    (∀ (encrypt : String → String → Except AppError (String × String))
        (lid : Nat) (code : String) (db : DB) (ct nonce : String),
      encrypt gen code = .ok (ct, nonce) →
      store_coupon_code encrypt env gen lid code db =
        .ok { db with couponCodes := db.couponCodes ++ [(lid, ct ++ ":" ++ nonce)] }) ∧
    (∀ (decrypt : String → String → String → Except AppError String)
        (db : DB) (uid : String) (lid : Nat) (s ct nonce plain : String),
      hasCouponAccess db uid lid = true →
      lookupCouponCode db lid = some s →
      splitOnChar ':' s = [ct, nonce] →
      decrypt gen ct nonce = .ok plain →
      get_coupon_code decrypt env gen db uid lid = .ok (some plain)) := by
  have hkey : encryptionKeyFromEnv env gen = gen := by
    simp [encryptionKeyFromEnv, henv]
  refine ⟨hkey, fun encrypt lid code db ct nonce henc => ?_,
    fun decrypt db uid lid s ct nonce plain ha hl hsplit hdec => ?_⟩
  · simp only [store_coupon_code, hkey, henc]
  · simp only [get_coupon_code, ha, Bool.true_eq_false, if_false, hl, hsplit,
      hkey, hdec, Except.map]

/-- Witness for the amended C9 theorem at a concrete empty environment. -/
theorem encryption_key_fallback_amended_witness :
    let dbW : DB := { DB.empty with
      listings := [{ id := 1, seller_id := "s", title := "Deal", category := "c",
                     brand_name := none, selling_price := 20, status := "active" }],
      couponCodes := [(1, "ab:cd")] }
    store_coupon_code (fun _ code => .ok (code, "n")) (fun _ => none) "g"
        2 "SAVE20" DB.empty =
      .ok { DB.empty with couponCodes := [(2, "SAVE20:n")] } ∧
    get_coupon_code (fun _ _ _ => .ok "PLAIN") (fun _ => none) "g" dbW "s" 1 =
      .ok (some "PLAIN") := by
  intro dbW
  exact ⟨(encryption_key_fallback_amended (fun _ => none) "g" rfl).2.1
      (fun _ code => .ok (code, "n")) 2 "SAVE20" DB.empty "SAVE20" "n" rfl,
    (encryption_key_fallback_amended (fun _ => none) "g" rfl).2.2
      (fun _ _ _ => .ok "PLAIN") dbW "s" 1 "ab:cd" "ab" "cd" "PLAIN"
      (by decide) (by decide) (by decide) rfl⟩

/-- C8: the similarity is the Jaccard measure over the case-insensitive
whitespace token sets (1 on identical strings with a non-empty token set, 0
on disjoint token sets), and the classifier flags a candidate with 85 on a
brand match with similarity above 0.7, with 75 when only the similarity
exceeds 0.8, and not at all otherwise; candidates that are never flagged
produce no match. -/
theorem duplicate_detector_spec :
    (∀ s : String, tokenSet s ≠ ∅ → calculate_similarity s s = 1) ∧
    (∀ s1 s2 : String, tokenSet s1 ∩ tokenSet s2 = ∅ →
      calculate_similarity s1 s2 = 0) ∧
    (∀ (code : String) (brand : Option String) (cand : CandidateListing),
      (brand.isSome && (cand.brand_name == brand)) = true →
      7/10 < calculate_similarity cand.title code →
      classifyCandidate code brand cand = some 85) ∧
    (∀ (code : String) (brand : Option String) (cand : CandidateListing),
      ¬((brand.isSome && (cand.brand_name == brand)) = true ∧
        7/10 < calculate_similarity cand.title code) →
      8/10 < calculate_similarity cand.title code →
      classifyCandidate code brand cand = some 75) ∧
    (∀ (code : String) (brand : Option String) (cand : CandidateListing),
      ¬((brand.isSome && (cand.brand_name == brand)) = true ∧
        7/10 < calculate_similarity cand.title code) →
      ¬(8/10 < calculate_similarity cand.title code) →
      classifyCandidate code brand cand = none) ∧
    (∀ (code : String) (brand : Option String)
        (candidates : List CandidateListing),
      (∀ cand ∈ candidates, classifyCandidate code brand cand = none) →
      find_similar_listings code brand candidates = []) := by
  refine ⟨fun s h => ?_, fun s1 s2 h => ?_, fun code brand cand hb hs => ?_,
    fun code brand cand hnot hs => ?_, fun code brand cand hnot hs => ?_,
    fun code brand candidates h => ?_⟩
  · simp only [calculate_similarity]
    rw [if_neg (by simp [h])]
    rw [Finset.inter_self, Finset.union_self]
    have hc : (tokenSet s).card ≠ 0 := fun hc => h (Finset.card_eq_zero.mp hc)
    exact div_self (by exact_mod_cast hc)
  · simp only [calculate_similarity]
    by_cases he : tokenSet s1 = ∅ ∨ tokenSet s2 = ∅
    · rw [if_pos he]
    · rw [if_neg he, h]
      simp
  · simp only [classifyCandidate]
    rw [if_pos ⟨hb, hs⟩]
  · simp only [classifyCandidate]
    rw [if_neg hnot, if_pos hs]
  · simp only [classifyCandidate]
    rw [if_neg hnot, if_neg hs]
  · apply List.filterMap_eq_nil.mpr
    intro cand hc
    rw [h cand hc]
    rfl

/-- Witness for C8: identical titles give similarity 1 and, with the brand
matching, confidence 85; disjoint titles give similarity 0 and, never
flagged, produce no match. -/
theorem duplicate_detector_spec_witness :
    calculate_similarity "save big" "save big" = 1 ∧
    calculate_similarity "alpha" "beta" = 0 ∧
    classifyCandidate "save big" (some "nike")
      ⟨9, "save big", "u", some "nike"⟩ = some 85 ∧
    find_similar_listings "zzz" none [⟨9, "alpha", "u", none⟩] = [] := by
  have hone := duplicate_detector_spec.1 "save big" (by decide)
  refine ⟨hone, duplicate_detector_spec.2.1 "alpha" "beta" (by decide), ?_, ?_⟩
  · exact duplicate_detector_spec.2.2.1 "save big" (some "nike")
      ⟨9, "save big", "u", some "nike"⟩ (by decide) (by rw [hone]; norm_num)
  · apply duplicate_detector_spec.2.2.2.2.2
    intro cand hc
    have hcand : cand = ⟨9, "alpha", "u", none⟩ := by
      simpa using hc
    subst hcand
    have hzero := duplicate_detector_spec.2.1 "alpha" "zzz" (by decide)
    apply duplicate_detector_spec.2.2.2.2.1
    · rintro ⟨ha, _⟩
      simp at ha
    · rw [hzero]
      norm_num

/-- On a counter row inside the window, `check_and_increment` either denies
(full counter) or increments, with the result fields of the source. -/
lemma check_single_hit (u : String) (c ws now : Int) (hin : now - 3600 < ws) :
    check_and_increment [⟨u, "create_listing", c, ws⟩] u .CreateListing now =
      if 10 ≤ c then
        ({ allowed := false, remaining := 0, reset_at := ws + 3600,
           retry_after := max (ws + 3600 - now) 0 },
         [⟨u, "create_listing", c, ws⟩])
      else
        ({ allowed := true, remaining := 10 - (c + 1), reset_at := ws + 3600,
           retry_after := 0 },
         [⟨u, "create_listing", c + 1, ws⟩]) := by
  simp only [check_and_increment, limitsFor, action_to_string]
  rw [List.find?_cons_of_pos _ (by
    simp only [beq_self_eq_true, Bool.true_and, Bool.and_true, decide_eq_true_eq]
    omega)]
  dsimp only
  split_ifs with h1 h2 <;> try (exfalso; omega)
  · norm_num
  · simp only [beq_self_eq_true, Bool.true_and, Bool.and_true, List.map_cons,
      List.map_nil, if_true]
    norm_num

/-- On a counter row whose window has expired, `check_and_increment` resets
the row to count 1 anchored at `now` and allows with `remaining = 9`. -/
lemma check_single_miss (u : String) (c ws now : Int) (hout : ¬(now - 3600 < ws)) :
    check_and_increment [⟨u, "create_listing", c, ws⟩] u .CreateListing now =
      ({ allowed := true, remaining := 9, reset_at := now + 3600,
         retry_after := 0 },
       [⟨u, "create_listing", 1, now⟩]) := by
  simp only [check_and_increment, limitsFor, action_to_string]
  rw [List.find?_cons_of_neg _ (by
    simp only [beq_self_eq_true, Bool.true_and, Bool.and_true, decide_eq_true_eq]
    omega)]
  simp only [List.find?_nil]
  simp only [List.any_cons, List.any_nil, beq_self_eq_true,
    Bool.true_and, Bool.and_true, Bool.or_false, if_true, List.map_cons,
    List.map_nil]
  norm_num

/-- The single-user, single-action trajectory of the rate limiter: after `i`
calls (i between 1 and 10) inside one window the stored counter reads `i`
with the window anchored at the first call. -/
lemma runCalls_createListing (u : String) (t : ℕ → Int)
    (hmono : ∀ i j, i ≤ j → t i ≤ t j) (hwin : t 10 < t 0 + 3600) :
    ∀ i, 1 ≤ i → i ≤ 10 →
      runCalls u .CreateListing t i = [⟨u, "create_listing", (i : Int), t 0⟩] := by
  intro i
  induction i with
  | zero => omega
  | succ n ih =>
    intro _ hle
    by_cases hn : n = 0
    · subst hn
      simp [runCalls, check_and_increment, limitsFor, action_to_string]
    · have h1 : 1 ≤ n := by omega
      have hrc := ih h1 (by omega)
      simp only [runCalls, hrc]
      have hinw : t n - 3600 < t 0 := by
        have := hmono n 10 (by omega)
        omega
      rw [check_single_hit u (n : Int) (t 0) (t n) hinw]
      rw [if_neg (by
        have : (n : Int) ≤ 9 := by exact_mod_cast (by omega : n ≤ 9)
        omega)]
      simp [Nat.cast_succ]

/-- C5: with the `create_listing` limit (10 per 60 minutes), ten calls inside
one window fill the counter and the eleventh is denied with `remaining = 0`
and `retry_after = windowStart + windowLength - now` floored at 0, which is
strictly positive while the window is open; and the first call on an expired
counter is allowed, resets the counter to count 1 anchored at now, and
returns `remaining = max - 1 = 9`. -/
theorem rate_limiter_window_spec (u : String) (t : ℕ → Int)
    (hmono : ∀ i j, i ≤ j → t i ≤ t j) (hwin : t 10 < t 0 + 3600) :
    ((check_and_increment (runCalls u .CreateListing t 10) u .CreateListing (t 10)).1.allowed = false ∧
     (check_and_increment (runCalls u .CreateListing t 10) u .CreateListing (t 10)).1.remaining = 0 ∧
     (check_and_increment (runCalls u .CreateListing t 10) u .CreateListing (t 10)).1.retry_after =
       max (t 0 + 3600 - t 10) 0 ∧
     0 < (check_and_increment (runCalls u .CreateListing t 10) u .CreateListing (t 10)).1.retry_after) ∧
    (∀ c ws now : Int, ws ≤ now - 3600 →
      (check_and_increment [⟨u, "create_listing", c, ws⟩] u .CreateListing now).1.allowed = true ∧
      (check_and_increment [⟨u, "create_listing", c, ws⟩] u .CreateListing now).1.remaining = 9 ∧
      (check_and_increment [⟨u, "create_listing", c, ws⟩] u .CreateListing now).2 =
        [⟨u, "create_listing", 1, now⟩]) := by
  constructor
  · rw [runCalls_createListing u t hmono hwin 10 (by omega) (le_refl 10)]
    simp only [Nat.cast_ofNat]
    rw [check_single_hit u 10 (t 0) (t 10) (by omega)]
    rw [if_pos (by norm_num : (10:Int) ≤ 10)]
    refine ⟨rfl, rfl, rfl, ?_⟩
    exact lt_max_iff.mpr (Or.inl (by omega))
  · intro c ws now h
    rw [check_single_miss u c ws now (by omega)]
    exact ⟨rfl, rfl, rfl⟩

/-- Witness for C5 at concrete times: eleven calls at seconds 0..10, and a
counter whose window expired exactly one hour ago. -/
theorem rate_limiter_window_spec_witness :
    ((check_and_increment
        (runCalls "u" .CreateListing (fun i => (i : Int)) 10)
        "u" .CreateListing 10).1.allowed = false ∧
     (check_and_increment
        (runCalls "u" .CreateListing (fun i => (i : Int)) 10)
        "u" .CreateListing 10).1.remaining = 0 ∧
     0 < (check_and_increment
        (runCalls "u" .CreateListing (fun i => (i : Int)) 10)
        "u" .CreateListing 10).1.retry_after) ∧
    ((check_and_increment [⟨"u", "create_listing", 10, -3600⟩]
        "u" .CreateListing 0).1.allowed = true ∧
     (check_and_increment [⟨"u", "create_listing", 10, -3600⟩]
        "u" .CreateListing 0).1.remaining = 9 ∧
     (check_and_increment [⟨"u", "create_listing", 10, -3600⟩]
        "u" .CreateListing 0).2 = [⟨"u", "create_listing", 1, 0⟩]) := by
  have h := rate_limiter_window_spec "u" (fun i => (i : Int))
    (fun i j hij => Int.ofNat_le.mpr hij) (by norm_num)
  exact ⟨⟨h.1.1, h.1.2.1, h.1.2.2.2⟩, h.2 10 (-3600) 0 (by norm_num)⟩

end Marketplace
